import Mathlib

/-!
Shallow embedding of the X.509 name-resolution and identity-matching core of
`src/native/libs/System.Security.Cryptography.Native/openssl.c`, together with
the buffer-probing accessors and the legacy (OpenSSL 1.0) initialization path.

Modelling conventions:
* Machine `int32_t` values are `Int`; the source never overflows the ranges we
  exercise, and explicit range guards from the source (`cBuf < 0`,
  `nameBufLen > INT_MAX`) are kept.
* C pointers that the source null-checks are `Option _`; pointers that a
  decoded OpenSSL object guarantees non-null (elements of a decoded
  `GENERAL_NAMES` stack, `X509_NAME` entries and their OID/data fields) are
  modelled as plain values, so the source's defensive null checks on them are
  the always-taken branch and are folded away.
* A memory BIO produced by `ASN1_STRING_print_ex(b, str, flags)` is modelled
  as the pair of the call's arguments (`BIO.str`, `BIO.flags`): the claims are
  about which string is rendered and with which flag.
* `GENERAL_NAMES_free` calls are counted explicitly (`altFrees`/`sanFrees`)
  so that the release-on-every-path property is a provable statement.
-/

/-! ## Constants from the OpenSSL headers used by the source -/

def NID_commonName : Int := 13
def NID_organizationalUnitName : Int := 18
def NID_organizationName : Int := 17
def NID_pkcs9_emailAddress : Int := 48
def NID_undef : Int := 0

def GEN_OTHERNAME : Int := 0
def GEN_EMAIL : Int := 1
def GEN_DNS : Int := 2
def GEN_X400 : Int := 3
def GEN_DIRNAME : Int := 4
def GEN_EDIPARTY : Int := 5
def GEN_URI : Int := 6
def GEN_IPADD : Int := 7
def GEN_RID : Int := 8

/-- `ASN1_STRFLGS_UTF8_CONVERT` (0x10): convert the embedded encoding to UTF-8. -/
def ASN1_STRFLGS_UTF8_CONVERT : Int := 16

/-- `X509_CHECK_FLAG_NO_PARTIAL_WILDCARDS` (0x4). Opaque to this model: it is
only ever passed through to the host-check callback. -/
def X509_CHECK_FLAG_NO_PARTIAL_WILDCARDS : Int := 4

def INT_MAX : Int := 2147483647

-- X509NameType values, see the `NAME_TYPE_*` defines in the source.
def NAME_TYPE_SIMPLE : Int := 0
def NAME_TYPE_EMAIL : Int := 1
def NAME_TYPE_UPN : Int := 2
def NAME_TYPE_DNS : Int := 3
def NAME_TYPE_DNSALT : Int := 4
def NAME_TYPE_URL : Int := 5

/-! ## Data model -/

/-- `ASN1_STRING`: a `length` field (C `int`) and the `data` bytes. -/
structure ASN1_STRING where
  length : Int
  data : List Nat
deriving DecidableEq, Repr

/-- `ASN1_OCTET_STRING` as used by the IP-address scan, where the source
null-checks the `data` pointer (`!ipAddr->data`): `none` models NULL data. -/
structure ASN1_OCTET_STRING where
  length : Int
  data : Option (List Nat)
deriving DecidableEq, Repr

/-- The `value` member of an `OTHERNAME` is an `ASN1_TYPE`; the UPN path reads
its union through `value.asn1_string`, which may be NULL (`none`). -/
structure ASN1_TYPE where
  asn1_string : Option ASN1_STRING
deriving DecidableEq, Repr

/-- `OTHERNAME`: the sub-OID (`type_id`) is kept as the dotted-decimal text
that `OBJ_obj2txt` renders for it, plus the embedded typed value. -/
structure OTHERNAME where
  type_id : List Char
  value : Option ASN1_TYPE
deriving DecidableEq, Repr

/-- One `GENERAL_NAME`: a tagged union; the constructor is the `type` tag and
carries the union member the source reads for that tag.  `d.otherName` is
null-checked by the source, hence its `Option` payload. -/
inductive GENERAL_NAME where
  | otherName (v : Option OTHERNAME)
  | rfc822Name (s : ASN1_STRING)
  | dNSName (s : ASN1_STRING)
  | x400Address
  | directoryName
  | ediPartyName
  | uniformResourceIdentifier (s : ASN1_STRING)
  | iPAddress (s : ASN1_OCTET_STRING)
  | registeredID
deriving DecidableEq, Repr

/-- The `type` field of a `GENERAL_NAME` (the `GEN_*` tag). -/
def GENERAL_NAME.genType : GENERAL_NAME → Int
  | .otherName _ => GEN_OTHERNAME
  | .rfc822Name _ => GEN_EMAIL
  | .dNSName _ => GEN_DNS
  | .x400Address => GEN_X400
  | .directoryName => GEN_DIRNAME
  | .ediPartyName => GEN_EDIPARTY
  | .uniformResourceIdentifier _ => GEN_URI
  | .iPAddress _ => GEN_IPADD
  | .registeredID => GEN_RID

/-- Reading `d.dNSName`; `none` on a mismatched tag (a union pun the source
never performs because every read is guarded by a `type` comparison). -/
def GENERAL_NAME.dNSName? : GENERAL_NAME → Option ASN1_STRING
  | .dNSName s => some s
  | _ => none

/-- Reading `d.rfc822Name` (guarded by the `type` check, as above). -/
def GENERAL_NAME.rfc822Name? : GENERAL_NAME → Option ASN1_STRING
  | .rfc822Name s => some s
  | _ => none

/-- Reading `d.uniformResourceIdentifier` (guarded by the `type` check). -/
def GENERAL_NAME.uri? : GENERAL_NAME → Option ASN1_STRING
  | .uniformResourceIdentifier s => some s
  | _ => none

/-- Reading `d.otherName` (guarded by the `type` check); the pointer itself
may be NULL, which the source checks with `if (value)`. -/
def GENERAL_NAME.otherName? : GENERAL_NAME → Option OTHERNAME
  | .otherName v => v
  | _ => none

/-- Reading `d.iPAddress` (guarded by the `type` check). -/
def GENERAL_NAME.iPAddress? : GENERAL_NAME → Option ASN1_OCTET_STRING
  | .iPAddress s => some s
  | _ => none

/-- One `X509_NAME_ENTRY`: for a decoded name, `X509_NAME_ENTRY_get_object`
and `X509_NAME_ENTRY_get_data` never return NULL, so we keep the resolved
`OBJ_obj2nid` code and the data directly. -/
structure X509_NAME_ENTRY where
  nid : Int
  data : ASN1_STRING
deriving DecidableEq, Repr

/-- `X509_NAME`: entries in storage (stack) order — index 0 first — plus the
DER encoding `X509_NAME_get0_der` exposes (`none` models its failure). -/
structure X509_NAME where
  entries : List X509_NAME_ENTRY
  der : Option (List Nat)
deriving DecidableEq, Repr

/-- The slice of an `X509` read by the functions under verification. -/
structure X509 where
  subject : Option X509_NAME
  issuer : Option X509_NAME
  subjectAltNames : Option (List GENERAL_NAME)
  issuerAltNames : Option (List GENERAL_NAME)
deriving DecidableEq, Repr

/-- A memory BIO holding one `ASN1_STRING_print_ex(b, str, flags)` rendering,
modelled as the arguments of that call. -/
structure BIO where
  str : ASN1_STRING
  flags : Int
deriving DecidableEq, Repr

/-! ## CryptoNative_GetX509NameInfo -/

/-- The literal `szOidUpn` from the source. -/
def szOidUpn : List Char := "1.3.6.1.4.1.311.20.2.3".toList

/-- `OBJ_obj2txt(buf, bufSize, oid, 1)`: renders the dotted-decimal text of
the OID, returning the full text length and storing at most `bufSize - 1`
characters (the terminator is implicit in the list representation). -/
def OBJ_obj2txt (bufSize : Nat) (oidText : List Char) : Int × List Char :=
  ((oidText.length : Int), oidText.take (bufSize - 1))

/-- `strncmp(a, b, n) == 0` for NUL-terminated buffers represented as the
character lists before their terminators: the comparison stops at `n`
characters or at the terminators. -/
def cStrncmpEq : List Char → List Char → Nat → Bool
  | _, _, 0 => true
  | [], [], _ + 1 => true
  | [], _ :: _, _ + 1 => false
  | _ :: _, [], _ + 1 => false
  | a :: as, b :: bs, n + 1 => a = b && cStrncmpEq as bs n

/-- The source's UPN sub-OID test:
`char localOid[sizeof(szOidUpn) + 3];`
`int cchLocalOid = 1 + OBJ_obj2txt(localOid, sizeof(localOid), value->type_id, 1);`
`sizeof(szOidUpn) == cchLocalOid && 0 == strncmp(localOid, szOidUpn, sizeof(szOidUpn))`. -/
def upnOidMatch (oidText : List Char) : Bool :=
  let szOidUpnSize : Nat := szOidUpn.length + 1
  let localOidSize : Nat := szOidUpnSize + 3
  let r := OBJ_obj2txt localOidSize oidText
  let cchLocalOid : Int := 1 + r.1
  if (szOidUpnSize : Int) = cchLocalOid then
    cStrncmpEq r.2 szOidUpn szOidUpnSize
  else
    false

/-- The `expectedType` switch at the head of the alternative-name phase. -/
def expectedAltNameType (nameType : Int) : Int :=
  if nameType = NAME_TYPE_DNS ∨ nameType = NAME_TYPE_DNSALT then GEN_DNS
  else if nameType = NAME_TYPE_SIMPLE ∨ nameType = NAME_TYPE_EMAIL then GEN_EMAIL
  else if nameType = NAME_TYPE_UPN then GEN_OTHERNAME
  else if nameType = NAME_TYPE_URL then GEN_URI
  else -1

/-- The `str` selected from one type-matched entry by the inner `switch` of
the alternative-name loop (`none` models `str == NULL`, i.e. keep looping). -/
def altNameEntryString (nameType : Int) (altName : GENERAL_NAME) : Option ASN1_STRING :=
  if nameType = NAME_TYPE_DNS ∨ nameType = NAME_TYPE_DNSALT then altName.dNSName?
  else if nameType = NAME_TYPE_SIMPLE ∨ nameType = NAME_TYPE_EMAIL then altName.rfc822Name?
  else if nameType = NAME_TYPE_URL then altName.uri?
  else if nameType = NAME_TYPE_UPN then
    match altName.otherName? with
    | some value =>
      if upnOidMatch value.type_id then
        match value.value with
        | some t => t.asn1_string
        | none => none
      else none
    | none => none
  else none

/-- The forward scan over the decoded `GENERAL_NAMES`: first entry whose
`type` matches and which yields a non-NULL `str` wins. -/
def altScan (nameType : Int) : List GENERAL_NAME → Option ASN1_STRING
  | [] => none
  | altName :: rest =>
    if altName.genType = expectedAltNameType nameType then
      match altNameEntryString nameType altName with
      | some s => some s
      | none => altScan nameType rest
    else altScan nameType rest

/-- Accumulator of the Simple-name backward walk (`cn`/`ou`/`o`/`e`/`firstRdn`). -/
structure SimpleAcc where
  cn : Option ASN1_STRING
  ou : Option ASN1_STRING
  o : Option ASN1_STRING
  e : Option ASN1_STRING
  firstRdn : Option ASN1_STRING
deriving DecidableEq, Repr

/-- The backward walk of the Simple phase.  The input list is the entry list
already reversed (the source iterates indices from `count - 1` down to `0`).
A Common-Name entry breaks out of the loop; `ou`/`o`/`e` are overwritten on
every hit; `firstRdn` is set only for an unrecognized type and only once. -/
def simpleScan : List X509_NAME_ENTRY → SimpleAcc → SimpleAcc
  | [], acc => acc
  | entry :: rest, acc =>
    let str := entry.data
    if entry.nid = NID_commonName then { acc with cn := some str }
    else if entry.nid = NID_organizationalUnitName then simpleScan rest { acc with ou := some str }
    else if entry.nid = NID_organizationName then simpleScan rest { acc with o := some str }
    else if entry.nid = NID_pkcs9_emailAddress then simpleScan rest { acc with e := some str }
    else if acc.firstRdn.isNone then simpleScan rest { acc with firstRdn := some str }
    else simpleScan rest acc

/-- `answer` selection after the Simple walk: `answer = cn;` then
`if (!answer && firstRdn)` run the `ou`/`o`/`e`/`firstRdn` fallback chain. -/
def simpleAnswer (name : X509_NAME) : Option ASN1_STRING :=
  let acc := simpleScan name.entries.reverse ⟨none, none, none, none, none⟩
  let answer := acc.cn
  if answer.isNone ∧ acc.firstRdn.isSome then
    let answer := acc.ou
    let answer := if answer.isNone then acc.o else answer
    let answer := if answer.isNone then acc.e else answer
    if answer.isNone then acc.firstRdn else answer
  else answer

/-- The `NAME_TYPE_SIMPLE` block (phase 1) of `CryptoNative_GetX509NameInfo`:
renders the selected attribute with `ASN1_STRFLGS_UTF8_CONVERT`. -/
def simplePhase (cert : X509) (nameType : Int) (forIssuer : Bool) : Option BIO :=
  if nameType = NAME_TYPE_SIMPLE then
    match (if forIssuer then cert.issuer else cert.subject) with
    | some name =>
      match simpleAnswer name with
      | some answer => some ⟨answer, ASN1_STRFLGS_UTF8_CONVERT⟩
      | none => none
    | none => none
  else none

/-- Outcome of the alternative-name block: the rendered result (if any),
whether `X509_get_ext_d2i` produced a list, and how many times
`GENERAL_NAMES_free` ran. -/
structure AltPhaseOut where
  result : Option BIO
  decoded : Bool
  frees : Nat
deriving DecidableEq, Repr

/-- The alternative-name block (phase 2): on a match the list is freed and the
rendering (with `ASN1_STRFLGS_UTF8_CONVERT`) returned; with no match the list
is freed after the loop. -/
def altPhase (cert : X509) (nameType : Int) (forIssuer : Bool) : AltPhaseOut :=
  match (if forIssuer then cert.issuerAltNames else cert.subjectAltNames) with
  | some altNames =>
    match altScan nameType altNames with
    | some str => ⟨some ⟨str, ASN1_STRFLGS_UTF8_CONVERT⟩, true, 1⟩
    | none => ⟨none, true, 1⟩
  | none => ⟨none, false, 0⟩

/-- The legacy single-attribute fallback (phase 3, Email/Dns modes only):
backward scan for the expected NID, rendered with flags `0`. -/
def legacyPhase (cert : X509) (nameType : Int) (forIssuer : Bool) : Option BIO :=
  if nameType = NAME_TYPE_EMAIL ∨ nameType = NAME_TYPE_DNS then
    let expectedNid :=
      if nameType = NAME_TYPE_EMAIL then NID_pkcs9_emailAddress
      else if nameType = NAME_TYPE_DNS then NID_commonName
      else NID_undef
    match (if forIssuer then cert.issuer else cert.subject) with
    | some name => legacyScan expectedNid name.entries.reverse
    | none => none
  else none
where
  /-- The backward walk of the fallback (input already reversed). -/
  legacyScan (expectedNid : Int) : List X509_NAME_ENTRY → Option BIO
    | [] => none
    | entry :: rest =>
      if entry.nid = expectedNid then some ⟨entry.data, 0⟩
      else legacyScan expectedNid rest

/-- Full outcome of `CryptoNative_GetX509NameInfo` with the
`GENERAL_NAMES_free` instrumentation. -/
structure NameInfoOut where
  result : Option BIO
  altDecoded : Bool
  altFrees : Nat
deriving DecidableEq, Repr

/-- `CryptoNative_GetX509NameInfo`, with the decode/free instrumentation.
The phase-2 entry condition of the source (`nameType` equal to one of the six
values) is implied by the initial range check and is folded away. -/
def getX509NameInfoFull (x509 : Option X509) (nameType : Int) (forIssuer : Bool) : NameInfoOut :=
  match x509 with
  | none => ⟨none, false, 0⟩
  | some cert =>
    if nameType < NAME_TYPE_SIMPLE ∨ nameType > NAME_TYPE_URL then ⟨none, false, 0⟩
    else
      match simplePhase cert nameType forIssuer with
      | some b => ⟨some b, false, 0⟩
      | none =>
        match altPhase cert nameType forIssuer with
        | ⟨some b, dec, fr⟩ => ⟨some b, dec, fr⟩
        | ⟨none, dec, fr⟩ => ⟨legacyPhase cert nameType forIssuer, dec, fr⟩

/-- The value `CryptoNative_GetX509NameInfo` returns to its caller. -/
def CryptoNative_GetX509NameInfo (x509 : Option X509) (nameType : Int) (forIssuer : Bool) : Option BIO :=
  (getX509NameInfoFull x509 nameType forIssuer).result

/-! ## CryptoNative_CheckX509Hostname -/

/-- The signature of `X509_check_host(x509, hostname, cchHostname, flags, NULL)`,
which is external library code: the embedding is parametric in it. -/
def CheckHostFn : Type := X509 → Option (List Nat) → Int → Int → Int

/-- `CryptoNative_CheckX509Hostname`.  The hostname is a byte list (`none`
models a NULL pointer); 46 is `'.'`. -/
def CryptoNative_CheckX509Hostname (check : CheckHostFn) (x509 : Option X509)
    (hostname : Option (List Nat)) (cchHostname : Int) : Int :=
  match x509 with
  | none => -3
  | some cert =>
    if cchHostname > 0 ∧ hostname.isNone then -4
    else if cchHostname < 0 then -5
    else if cchHostname > 0 ∧ (hostname.getD []).headD 0 = 46 then 0
    else check cert hostname cchHostname X509_CHECK_FLAG_NO_PARTIAL_WILDCARDS

/-! ## CryptoNative_CheckX509IpAddress -/

/-- `memcmp(a, b, n) == 0`: the first `n` bytes of each buffer coincide. -/
def memcmpEq (a b : List Nat) (n : Nat) : Bool :=
  decide (a.take n = b.take n)

/-- ASCII `tolower` as applied by `strncasecmp`. -/
def asciiLower (b : Nat) : Nat :=
  if 65 ≤ b ∧ b ≤ 90 then b + 32 else b

/-- `strncasecmp(a, b, n) == 0` on NUL-terminated buffers represented as the
byte lists before their terminators: stops at `n` bytes or at a terminator. -/
def strncasecmpEq : List Nat → List Nat → Nat → Bool
  | _, _, 0 => true
  | [], [], _ + 1 => true
  | [], _ :: _, _ + 1 => false
  | _ :: _, [], _ + 1 => false
  | a :: as, b :: bs, n + 1 =>
    if asciiLower a = asciiLower b then
      if a = 0 then true else strncasecmpEq as bs n
    else false

/-- The loop over the decoded SAN looking for a `GEN_IPADD` entry whose length
equals `addressBytesLen` and whose bytes `memcmp`-match `addressBytes`. -/
def ipSanScan (addressBytes : List Nat) (addressBytesLen : Int) : List GENERAL_NAME → Bool
  | [] => false
  | sanEntry :: rest =>
    if sanEntry.genType ≠ GEN_IPADD then ipSanScan addressBytes addressBytesLen rest
    else
      match sanEntry.iPAddress? with
      | none => ipSanScan addressBytes addressBytesLen rest
      | some ipAddr =>
        match ipAddr.data with
        | none => ipSanScan addressBytes addressBytesLen rest
        | some d =>
          if ipAddr.length ≠ addressBytesLen then ipSanScan addressBytes addressBytesLen rest
          else if memcmpEq addressBytes d (Int.toNat addressBytesLen) then true
          else ipSanScan addressBytes addressBytesLen rest

/-- The fallback `while X509_NAME_get_index_by_NID(subject, NID_commonName, i)`
loop: every Common-Name entry, in forward index order, compared by exact
length and case-insensitive bytes. -/
def cnFallbackScan (hostname : List Nat) (cchHostname : Int) : List X509_NAME_ENTRY → Bool
  | [] => false
  | nameEnt :: rest =>
    if nameEnt.nid = NID_commonName then
      let cn := nameEnt.data
      if cn.length = cchHostname ∧ strncasecmpEq cn.data hostname (Int.toNat cchHostname) = true then true
      else cnFallbackScan hostname cchHostname rest
    else cnFallbackScan hostname cchHostname rest

/-- Full outcome of `CryptoNative_CheckX509IpAddress` with the
`GENERAL_NAMES_free` instrumentation. -/
structure IpCheckOut where
  result : Int
  sanDecoded : Bool
  sanFrees : Nat
deriving DecidableEq, Repr

/-- `CryptoNative_CheckX509IpAddress`, with the decode/free instrumentation. -/
def checkX509IpAddressFull (x509 : Option X509) (addressBytes : Option (List Nat))
    (addressBytesLen : Int) (hostname : Option (List Nat)) (cchHostname : Int) : IpCheckOut :=
  match x509 with
  | none => ⟨-2, false, 0⟩
  | some cert =>
    if cchHostname > 0 ∧ hostname.isNone then ⟨-3, false, 0⟩
    else if cchHostname < 0 then ⟨-4, false, 0⟩
    else if addressBytesLen < 0 then ⟨-5, false, 0⟩
    else
      match addressBytes with
      | none => ⟨-6, false, 0⟩
      | some addr =>
        let sanOut : Bool × Bool × Nat :=
          match cert.subjectAltNames with
          | some san => (ipSanScan addr addressBytesLen san, true, 1)
          | none => (false, false, 0)
        let success :=
          if sanOut.1 = false then
            match cert.subject with
            | some subject => cnFallbackScan (hostname.getD []) cchHostname subject.entries
            | none => false
          else sanOut.1
        ⟨if success then 1 else 0, sanOut.2.1, sanOut.2.2⟩

/-- The value `CryptoNative_CheckX509IpAddress` returns to its caller. -/
def CryptoNative_CheckX509IpAddress (x509 : Option X509) (addressBytes : Option (List Nat))
    (addressBytesLen : Int) (hostname : Option (List Nat)) (cchHostname : Int) : Int :=
  (checkX509IpAddressFull x509 addressBytes addressBytesLen hostname cchHostname).result

/-! ## Buffer-probing accessors -/

/-- Result of a probing accessor: the returned code and the number of bytes
the `memcpy_s` call moved into the caller's buffer. -/
structure CopyOut where
  ret : Int
  copied : Nat
deriving DecidableEq, Repr

/-- `CryptoNative_GetAsn1StringBytes`.  `pBuf` records whether the output
pointer is non-null.  The `assert(length >= 0)` branch of the source is kept
as the `length < 0` guard. -/
def CryptoNative_GetAsn1StringBytes (asn1 : Option ASN1_STRING) (pBuf : Bool) (cBuf : Int) : CopyOut :=
  match asn1 with
  | none => ⟨0, 0⟩
  | some s =>
    if cBuf < 0 then ⟨0, 0⟩
    else
      let length := s.length
      if length < 0 then ⟨0, 0⟩
      else if pBuf = false ∨ cBuf < length then ⟨-length, 0⟩
      else ⟨1, Int.toNat length⟩

/-- `CryptoNative_GetX509NameRawBytes`.  The `length < 0` re-check of the
source is subsumed: a `List` length is never negative once it is known to be
at most `INT_MAX`. -/
def CryptoNative_GetX509NameRawBytes (x509Name : Option X509_NAME) (pBuf : Bool) (cBuf : Int) : CopyOut :=
  match x509Name with
  | none => ⟨0, 0⟩
  | some nm =>
    if cBuf < 0 then ⟨0, 0⟩
    else
      match nm.der with
      | none => ⟨0, 0⟩
      | some nameBuf =>
        if (nameBuf.length : Int) > INT_MAX then ⟨0, 0⟩
        else
          let length : Int := nameBuf.length
          if pBuf = false ∨ cBuf < length then ⟨-length, 0⟩
          else ⟨1, nameBuf.length⟩

/-! ## EnsureOpenSsl10Initialized (legacy, caller-managed-lock initialization) -/

/-- The environment the legacy initialization sequence probes: the lock count
reported by `CRYPTO_num_locks`, whether `multiply_s` and `malloc` succeed,
which `pthread_mutex_init` calls succeed, and the `RAND_poll` result. -/
structure Env10 where
  numLocks : Int
  mulOk : Bool
  mallocOk : Bool
  mutexInitOk : Nat → Bool
  randPollResult : Int

/-- The process-wide state guarded by `g_initLock`: `g_locks` is `none` when
NULL, `some n` when an array of `n` initialized mutexes is installed. -/
structure Init10State where
  g_locks : Option Nat
deriving DecidableEq, Repr

/-- Observable outcome of one `EnsureOpenSsl10Initialized` call: the return
code, the final `g_locks`, the indices handed to `pthread_mutex_destroy` (in
call order), and whether `free(g_locks)` ran. -/
structure Init10Out where
  ret : Int
  g_locks : Option Nat
  destroyed : List Nat
  freedArray : Bool
deriving DecidableEq, Repr

/-- The mutex-initialization `for` loop: returns the value `locksInitialized`
has when the loop exits and whether it exited through the `ret = 3` branch. -/
def initLoop (ok : Nat → Bool) (i : Nat) : Nat → Nat × Bool
  | 0 => (i, false)
  | r + 1 => if ok i then initLoop ok (i + 1) r else (i, true)

/-- The body of `EnsureOpenSsl10Initialized` up to the `done:` label, for the
not-yet-initialized case: `(ret, g_locks before cleanup, locksInitialized)`.
The success path's callback installation, algorithm/string loading and ex-data
registrations have no bearing on the modelled observables. -/
def ensure10Run (env : Env10) : Int × Option Nat × Nat :=
  if env.numLocks ≤ 0 then (1, none, 0)
  else if env.mulOk = false then (2, none, 0)
  else if env.mallocOk = false then (2, none, 0)
  else
    let numLocks := Int.toNat env.numLocks
    let li := initLoop env.mutexInitOk 0 numLocks
    if li.2 then (3, some numLocks, li.1)
    else if env.randPollResult < 1 then (4, some numLocks, li.1)
    else (0, some numLocks, li.1)

/-- `EnsureOpenSsl10Initialized`: the already-initialized fast path, then the
run, then the `done:` cleanup block (`if (ret != 0)`: destroy the mutexes
`locksInitialized - 1 .. 0`, free the array, reset `g_locks`). -/
def EnsureOpenSsl10Initialized (st : Init10State) (env : Env10) : Init10Out :=
  match st.g_locks with
  | some n => ⟨0, some n, [], false⟩
  | none =>
    let r := ensure10Run env
    if r.1 ≠ 0 then
      match r.2.1 with
      | some _ => ⟨r.1, none, (List.range r.2.2).reverse, true⟩
      | none => ⟨r.1, none, [], false⟩
    else ⟨r.1, r.2.1, [], false⟩

/-! ## Declarative per-entry predicates used to characterize the scans -/

/-- A SAN entry that `CryptoNative_CheckX509IpAddress` accepts: an IP entry
with non-NULL data, length exactly `addressBytesLen`, identical bytes. -/
def sanIpMatchB (addressBytes : List Nat) (addressBytesLen : Int) (gn : GENERAL_NAME) : Bool :=
  match gn with
  | .iPAddress ip =>
    match ip.data with
    | some d => decide (ip.length = addressBytesLen) && memcmpEq addressBytes d (Int.toNat addressBytesLen)
    | none => false
  | _ => false

/-- A Subject entry that the Common-Name fallback accepts: NID Common-Name,
exact length, case-insensitive byte equality. -/
def cnHostMatchB (hostname : List Nat) (cchHostname : Int) (ent : X509_NAME_ENTRY) : Bool :=
  decide (ent.nid = NID_commonName) && decide (ent.data.length = cchHostname) &&
    strncasecmpEq ent.data.data hostname (Int.toNat cchHostname)

/-- An alternative-name entry that is not an "other name" with the exact UPN
sub-OID (an "other name" with a NULL `OTHERNAME` also qualifies). -/
def nonUpnOther (gn : GENERAL_NAME) : Bool :=
  match gn with
  | .otherName (some v) => decide (v.type_id ≠ szOidUpn)
  | _ => true

/-! ## Concrete instances used by counterexamples and witnesses -/

/-- A subject holding a single OrganizationalUnit attribute (value `"A"`),
no Common Name, no unrecognized attribute. -/
def ouOnlyName : X509_NAME := ⟨[⟨NID_organizationalUnitName, ⟨1, [65]⟩⟩], none⟩

/-- A certificate with `ouOnlyName` as subject and no alternative names. -/
def ouOnlyCert : X509 := ⟨some ouOnlyName, none, none, none⟩

/-- The UPN OID extended by one digit: `1.3.6.1.4.1.311.20.2.30`. -/
def oid30 : List Char := "1.3.6.1.4.1.311.20.2.30".toList

/-- A SAN whose only entry is an "other name" under `oid30` with a non-NULL
embedded value (`"upn"`). -/
def upn30San : List GENERAL_NAME :=
  [GENERAL_NAME.otherName (some ⟨oid30, some ⟨some ⟨3, [117, 112, 110]⟩⟩⟩)]

/-- A certificate carrying `upn30San` as its Subject Alternative Name. -/
def upn30Cert : X509 := ⟨some ⟨[], none⟩, none, some upn30San, none⟩

/-- A SAN whose only entry is a 16-byte (IPv6) IP whose low-order 4 bytes are
`192.168.0.1`. -/
def ip6San : List GENERAL_NAME :=
  [GENERAL_NAME.iPAddress ⟨16, some [32, 1, 13, 184, 0, 0, 0, 0, 0, 0, 0, 0, 192, 168, 0, 1]⟩]

/-- A certificate carrying `ip6San` and an empty subject. -/
def ip6Cert : X509 := ⟨some ⟨[], none⟩, none, some ip6San, none⟩

/-- The bytes of `".example.com"`. -/
def dotHostBytes : List Nat := [46, 101, 120, 97, 109, 112, 108, 101, 46, 99, 111, 109]

/-- A host-check callback that always reports a match, to exhibit that the
dot-guard answer does not consult the callback. -/
def constOneCheck : CheckHostFn := fun _ _ _ _ => 1

/-- An environment whose second `pthread_mutex_init` fails. -/
def envMutexFail : Env10 := ⟨2, true, true, fun i => decide (i = 0), 1⟩

/-- A subject holding a single e-mail attribute (value `"e"`). -/
def emailOnlyName : X509_NAME := ⟨[⟨NID_pkcs9_emailAddress, ⟨1, [101]⟩⟩], none⟩

/-- A certificate with `emailOnlyName` as subject and no alternative names. -/
def emailOnlyCert : X509 := ⟨some emailOnlyName, none, none, none⟩

/-- A two-byte ASN1 string. -/
def twoByteStr : ASN1_STRING := ⟨2, [10, 20]⟩

/-- A name whose DER encoding is the two bytes of an empty SEQUENCE. -/
def derName : X509_NAME := ⟨[], some [48, 0]⟩

/-- A zero-length ASN1 string. -/
def emptyStr : ASN1_STRING := ⟨0, []⟩

/-!
# Theorems

Helper lemmas first, then one theorem per claim (with witnesses where the
claim theorem carries hypotheses).
-/

/-- C1: the Simple-mode fallback does not behave as specified.  On a subject
whose only entry is an OrganizationalUnit (no Common Name), the function
returns no result at all — `firstRdn` records only unrecognized attribute
types, and the `ou`/`o`/`e` fallback chain is gated on `firstRdn` being
non-NULL — instead of returning the OrganizationalUnit text as the claim (and
the pseudocode comment in the source) states. -/
theorem getX509NameInfo_simple_ouOnly_falls_through :
    (∃ ent ∈ ouOnlyName.entries, ent.nid = NID_organizationalUnitName) ∧
    (∀ ent ∈ ouOnlyName.entries, ent.nid ≠ NID_commonName) ∧
    CryptoNative_GetX509NameInfo (some ouOnlyCert) NAME_TYPE_SIMPLE false = none := by
  refine ⟨?_, ?_, ?_⟩ <;> decide

/-- C10: for a non-null ASN1 string of length zero with a null output buffer
the accessor returns `-0 = 0`, the same code it returns for a NULL input; and
a negative capacity also returns the same `0`, not a distinct error code. -/
theorem getAsn1StringBytes_zero_degenerate :
    (∀ (s : ASN1_STRING) (cBuf : Int), s.length = 0 → 0 ≤ cBuf →
        (CryptoNative_GetAsn1StringBytes (some s) false cBuf).ret = 0) ∧
    (∀ (pBuf : Bool) (cBuf : Int), (CryptoNative_GetAsn1StringBytes none pBuf cBuf).ret = 0) ∧
    (∀ (s : ASN1_STRING) (pBuf : Bool) (cBuf : Int), cBuf < 0 →
        (CryptoNative_GetAsn1StringBytes (some s) pBuf cBuf).ret = 0) := by
  refine ⟨?_, ?_, ?_⟩
  · intro s cBuf h0 hc
    simp only [CryptoNative_GetAsn1StringBytes, h0]
    split_ifs with h1 h2 h3 <;> simp_all
  · intro pBuf cBuf
    rfl
  · intro s pBuf cBuf hc
    simp only [CryptoNative_GetAsn1StringBytes]
    rw [if_pos hc]

/-- C10 witness: the degenerate probe on a concrete empty string. -/
theorem getAsn1StringBytes_zero_degenerate_witness :
    (emptyStr.length = 0 ∧ (0 : Int) ≤ 5) ∧
    (CryptoNative_GetAsn1StringBytes (some emptyStr) false 5).ret = 0 :=
  ⟨⟨rfl, by decide⟩,
    getAsn1StringBytes_zero_degenerate.1 emptyStr 5 rfl (by decide)⟩

/-- C8: both probing accessors return `1` after copying on success, `0` for
invalid input, and `-requiredCapacity` when the buffer is null or too small;
probing with a null zero-capacity buffer yields a negative code whose
magnitude is exactly the byte count copied by the successful retry at that
capacity. -/
theorem bufferProbe_convention :
    (∀ (s : ASN1_STRING) (pBuf : Bool) (cBuf : Int), 0 ≤ s.length → 0 ≤ cBuf →
        (pBuf = true → s.length ≤ cBuf →
            CryptoNative_GetAsn1StringBytes (some s) pBuf cBuf = ⟨1, Int.toNat s.length⟩) ∧
        ((pBuf = false ∨ cBuf < s.length) →
            (CryptoNative_GetAsn1StringBytes (some s) pBuf cBuf).ret = -s.length)) ∧
    (∀ (s : ASN1_STRING), 0 < s.length →
        (CryptoNative_GetAsn1StringBytes (some s) false 0).ret = -s.length ∧
        (CryptoNative_GetAsn1StringBytes (some s) false 0).ret < 0 ∧
        CryptoNative_GetAsn1StringBytes (some s) true s.length = ⟨1, Int.toNat s.length⟩ ∧
        ((CryptoNative_GetAsn1StringBytes (some s) true s.length).copied : Int) =
          -(CryptoNative_GetAsn1StringBytes (some s) false 0).ret) ∧
    (∀ (pBuf : Bool) (cBuf : Int), (CryptoNative_GetX509NameRawBytes none pBuf cBuf).ret = 0) ∧
    (∀ (nm : X509_NAME) (der : List Nat), nm.der = some der → 0 < der.length →
        (der.length : Int) ≤ INT_MAX →
        (CryptoNative_GetX509NameRawBytes (some nm) false 0).ret = -(der.length : Int) ∧
        (CryptoNative_GetX509NameRawBytes (some nm) false 0).ret < 0 ∧
        CryptoNative_GetX509NameRawBytes (some nm) true (der.length : Int) = ⟨1, der.length⟩) := by
  refine ⟨?_, ?_, ?_, ?_⟩
  · intro s pBuf cBuf hs hc
    constructor
    · intro hp hle
      simp only [CryptoNative_GetAsn1StringBytes, hp]
      rw [if_neg (by omega), if_neg (by omega), if_neg (by simp; omega)]
    · intro hsmall
      simp only [CryptoNative_GetAsn1StringBytes]
      rw [if_neg (by omega), if_neg (by omega), if_pos ?_]
      rcases hsmall with h | h
      · exact Or.inl h
      · exact Or.inr h
  · intro s hs
    have h1 : (CryptoNative_GetAsn1StringBytes (some s) false 0).ret = -s.length := by
      simp only [CryptoNative_GetAsn1StringBytes]
      rw [if_neg (by omega), if_neg (by omega), if_pos (Or.inl trivial)]
    have h2 : CryptoNative_GetAsn1StringBytes (some s) true s.length = ⟨1, Int.toNat s.length⟩ := by
      simp only [CryptoNative_GetAsn1StringBytes]
      rw [if_neg (by omega), if_neg (by omega), if_neg (by simp)]
    refine ⟨h1, by omega, h2, ?_⟩
    rw [h1, h2]
    simp only
    omega
  · intro pBuf cBuf
    rfl
  · intro nm der hder hpos hmax
    have h1 : (CryptoNative_GetX509NameRawBytes (some nm) false 0).ret = -(der.length : Int) := by
      simp only [CryptoNative_GetX509NameRawBytes, hder]
      rw [if_neg (by omega), if_neg (by omega), if_pos (Or.inl trivial)]
    have h2 : CryptoNative_GetX509NameRawBytes (some nm) true (der.length : Int) = ⟨1, der.length⟩ := by
      simp only [CryptoNative_GetX509NameRawBytes, hder]
      rw [if_neg (by omega), if_neg (by omega), if_neg (by simp)]
    exact ⟨h1, by omega, h2⟩

/-- Helper: the alternative-name block frees the decoded list exactly when it
decoded one. -/
theorem altPhase_frees_eq (cert : X509) (nameType : Int) (forIssuer : Bool) :
    (altPhase cert nameType forIssuer).frees =
      if (altPhase cert nameType forIssuer).decoded then 1 else 0 := by
  cases hA : (if forIssuer then cert.issuerAltNames else cert.subjectAltNames) with
  | none => simp [altPhase, hA]
  | some lst => cases hS : altScan nameType lst <;> simp [altPhase, hA, hS]

/-- C4: a hostname whose first byte is `'.'` makes `CheckX509Hostname` report
no-match for every possible host-check callback (so the callback is not what
produced the answer); on every other argument-valid input the function
returns exactly the callback's verdict, invoked with
`X509_CHECK_FLAG_NO_PARTIAL_WILDCARDS`. -/
theorem checkX509Hostname_dot_guard_and_delegation :
    (∀ (check : CheckHostFn) (cert : X509) (hs : List Nat) (cch : Int),
        0 < cch → hs.headD 0 = 46 →
        CryptoNative_CheckX509Hostname check (some cert) (some hs) cch = 0) ∧
    (∀ (check : CheckHostFn) (cert : X509) (hostname : Option (List Nat)) (cch : Int),
        0 ≤ cch → ¬(0 < cch ∧ hostname.isNone) →
        ¬(0 < cch ∧ (hostname.getD []).headD 0 = 46) →
        CryptoNative_CheckX509Hostname check (some cert) hostname cch =
          check cert hostname cch X509_CHECK_FLAG_NO_PARTIAL_WILDCARDS) := by
  constructor
  · intro check cert hs cch hpos hdot
    simp only [CryptoNative_CheckX509Hostname]
    rw [if_neg (by simp), if_neg (by omega), if_pos ⟨hpos, by simpa using hdot⟩]
  · intro check cert hostname cch hnonneg hvalid hnodot
    simp only [CryptoNative_CheckX509Hostname]
    rw [if_neg hvalid, if_neg (by omega), if_neg hnodot]

/-- C4 witness: `.example.com` yields no-match even under an always-match
callback, and a dot-free hostname is delegated to the callback verbatim. -/
theorem checkX509Hostname_dot_guard_witness :
    ((0 : Int) < 12 ∧ dotHostBytes.headD 0 = 46 ∧
      CryptoNative_CheckX509Hostname constOneCheck (some ouOnlyCert) (some dotHostBytes) 12 = 0) ∧
    CryptoNative_CheckX509Hostname constOneCheck (some ouOnlyCert) (some [101, 120]) 2 =
      constOneCheck ouOnlyCert (some [101, 120]) 2 X509_CHECK_FLAG_NO_PARTIAL_WILDCARDS :=
  ⟨⟨by decide, by decide,
      checkX509Hostname_dot_guard_and_delegation.1 constOneCheck ouOnlyCert dotHostBytes 12
        (by decide) (by decide)⟩,
    checkX509Hostname_dot_guard_and_delegation.2 constOneCheck ouOnlyCert (some [101, 120]) 2
      (by decide) (by decide) (by decide)⟩

/-- C5: on every control path of `GetX509NameInfo` and `CheckX509IpAddress`,
the decoded alternative-name list is released exactly once (and never when no
list was decoded), including the early-return-on-match paths. -/
theorem generalNames_freed_exactly_once :
    (∀ (x509 : Option X509) (nameType : Int) (forIssuer : Bool),
        (getX509NameInfoFull x509 nameType forIssuer).altFrees =
          if (getX509NameInfoFull x509 nameType forIssuer).altDecoded then 1 else 0) ∧
    (∀ (x509 : Option X509) (addressBytes : Option (List Nat)) (addressBytesLen : Int)
        (hostname : Option (List Nat)) (cchHostname : Int),
        (checkX509IpAddressFull x509 addressBytes addressBytesLen hostname cchHostname).sanFrees =
          if (checkX509IpAddressFull x509 addressBytes addressBytesLen hostname cchHostname).sanDecoded
          then 1 else 0) := by
  constructor
  · intro x509 nameType forIssuer
    cases x509 with
    | none => rfl
    | some cert =>
      simp only [getX509NameInfoFull]
      split
      · rfl
      · cases hs : simplePhase cert nameType forIssuer with
        | some b => rfl
        | none =>
          have hfree := altPhase_frees_eq cert nameType forIssuer
          cases hP : altPhase cert nameType forIssuer with
          | mk r dec fr =>
            rw [hP] at hfree
            cases r <;> simpa using hfree
  · intro x509 addressBytes addressBytesLen hostname cchHostname
    cases x509 with
    | none => rfl
    | some cert =>
      by_cases h1 : cchHostname > 0 ∧ hostname.isNone = true
      · simp [checkX509IpAddressFull, h1]
      · by_cases h2 : cchHostname < 0
        · simp only [checkX509IpAddressFull, h1, h2]
          split <;> rfl
        · by_cases h3 : addressBytesLen < 0
          · simp [checkX509IpAddressFull, h1, h2, h3]
            split <;> rfl
          · cases addressBytes with
            | none =>
              simp [checkX509IpAddressFull, h1, h2, h3]
              split <;> rfl
            | some addr =>
              cases hS : cert.subjectAltNames <;>
                simp [checkX509IpAddressFull, h1, h2, h3, hS] <;>
                split <;> rfl

/-- Helper: every rendering the legacy fallback scan emits carries flags `0`. -/
theorem legacyScan_flags_zero (expectedNid : Int) (l : List X509_NAME_ENTRY) (b : BIO)
    (h : legacyPhase.legacyScan expectedNid l = some b) : b.flags = 0 := by
  induction l with
  | nil => simp [legacyPhase.legacyScan] at h
  | cons e rest ih =>
    by_cases he : e.nid = expectedNid
    · simp [legacyPhase.legacyScan, he] at h
      rw [← h]
    · simp only [legacyPhase.legacyScan, if_neg he] at h
      exact ih h

/-- Helper: every rendering of the Simple phase uses the UTF-8 flag. -/
theorem simplePhase_flags (cert : X509) (nameType : Int) (forIssuer : Bool) (b : BIO)
    (h : simplePhase cert nameType forIssuer = some b) : b.flags = ASN1_STRFLGS_UTF8_CONVERT := by
  simp only [simplePhase] at h
  split at h
  · split at h
    · split at h
      · cases h
        rfl
      · simp at h
    · simp at h
  · simp at h

/-- Helper: every rendering of the alternative-name phase uses the UTF-8 flag. -/
theorem altPhase_flags (cert : X509) (nameType : Int) (forIssuer : Bool) (b : BIO)
    (h : (altPhase cert nameType forIssuer).result = some b) :
    b.flags = ASN1_STRFLGS_UTF8_CONVERT := by
  unfold altPhase at h
  split at h
  · split at h
    · dsimp only at h
      cases h
      rfl
    · simp at h
  · simp at h

/-- Helper: every rendering of the legacy fallback phase uses flags `0`. -/
theorem legacyPhase_flags (cert : X509) (nameType : Int) (forIssuer : Bool) (b : BIO)
    (h : legacyPhase cert nameType forIssuer = some b) : b.flags = 0 := by
  simp only [legacyPhase] at h
  split at h
  · cases hn : (if forIssuer then cert.issuer else cert.subject) with
    | none => rw [hn] at h; exact absurd h (by simp)
    | some name =>
      rw [hn] at h
      exact legacyScan_flags_zero _ _ _ h
  · exact absurd h (by simp)

/-- C9: the Simple distinguished-name scan and all alternative-name results
are rendered with `ASN1_STRFLGS_UTF8_CONVERT`, while the legacy
single-attribute fallback of Email/Dns renders with flags `0`; consequently
every answer of `GetX509NameInfo` carries one of exactly these two flags. -/
theorem nameInfo_utf8_flag_asymmetry :
    (∀ (cert : X509) (nameType : Int) (forIssuer : Bool) (b : BIO),
        simplePhase cert nameType forIssuer = some b →
        b.flags = ASN1_STRFLGS_UTF8_CONVERT) ∧
    (∀ (cert : X509) (nameType : Int) (forIssuer : Bool) (b : BIO),
        (altPhase cert nameType forIssuer).result = some b →
        b.flags = ASN1_STRFLGS_UTF8_CONVERT) ∧
    (∀ (cert : X509) (nameType : Int) (forIssuer : Bool) (b : BIO),
        legacyPhase cert nameType forIssuer = some b → b.flags = 0) ∧
    (∀ (x509 : Option X509) (nameType : Int) (forIssuer : Bool) (b : BIO),
        CryptoNative_GetX509NameInfo x509 nameType forIssuer = some b →
        b.flags = ASN1_STRFLGS_UTF8_CONVERT ∨ b.flags = 0) := by
  refine ⟨simplePhase_flags, altPhase_flags, legacyPhase_flags, ?_⟩
  intro x509 nameType forIssuer b h
  cases x509 with
  | none => exact absurd h (by simp [CryptoNative_GetX509NameInfo, getX509NameInfoFull])
  | some cert =>
    simp only [CryptoNative_GetX509NameInfo, getX509NameInfoFull] at h
    split at h
    · exact absurd h (by simp)
    · cases hs : simplePhase cert nameType forIssuer with
      | some b1 =>
        rw [hs] at h
        cases h
        exact Or.inl (simplePhase_flags _ _ _ _ hs)
      | none =>
        rw [hs] at h
        cases hP : altPhase cert nameType forIssuer with
        | mk r dec fr =>
          rw [hP] at h
          cases r with
          | some b2 =>
            cases h
            exact Or.inl (altPhase_flags cert nameType forIssuer _ (by rw [hP]))
          | none => exact Or.inr (legacyPhase_flags _ _ _ _ h)

/-- C9 witness: a concrete certificate whose Email answer comes from the
legacy fallback and carries flags `0`. -/
theorem nameInfo_utf8_flag_asymmetry_witness :
    legacyPhase emailOnlyCert NAME_TYPE_EMAIL false = some ⟨⟨1, [101]⟩, 0⟩ ∧
    (⟨⟨1, [101]⟩, 0⟩ : BIO).flags = 0 :=
  ⟨by decide,
    nameInfo_utf8_flag_asymmetry.2.2.1 emailOnlyCert NAME_TYPE_EMAIL false ⟨⟨1, [101]⟩, 0⟩
      (by decide)⟩

/-- Helper: when both C strings terminate strictly before the byte budget,
`strncmp` equality is plain equality. -/
theorem cStrncmpEq_eq_true_iff :
    ∀ (n : Nat) (a b : List Char), a.length < n → b.length < n →
      (cStrncmpEq a b n = true ↔ a = b) := by
  intro n
  induction n with
  | zero => intro a b ha _; exact absurd ha (Nat.not_lt_zero _)
  | succ n ih =>
    intro a b ha hb
    cases a with
    | nil =>
      cases b with
      | nil => simp [cStrncmpEq]
      | cons y ys => simp [cStrncmpEq]
    | cons x xs =>
      cases b with
      | nil => simp [cStrncmpEq]
      | cons y ys =>
        have hxs : xs.length < n := by simpa using Nat.lt_of_succ_lt_succ ha
        have hys : ys.length < n := by simpa using Nat.lt_of_succ_lt_succ hb
        simp [cStrncmpEq, ih xs ys hxs hys]

/-- Helper: the source's UPN guard holds exactly for the literal UPN OID text. -/
theorem upnOidMatch_eq_true_iff (t : List Char) : upnOidMatch t = true ↔ t = szOidUpn := by
  constructor
  · intro h
    simp only [upnOidMatch, OBJ_obj2txt] at h
    split at h
    · rename_i hlen
      have hlen' : t.length = szOidUpn.length := by omega
      have hsz : szOidUpn.length = 22 := by decide
      have htake : t.take (szOidUpn.length + 1 + 3 - 1) = t :=
        List.take_of_length_le (by omega)
      rw [htake] at h
      exact (cStrncmpEq_eq_true_iff (szOidUpn.length + 1) t szOidUpn (by omega) (by omega)).mp h
    · exact absurd h (by simp)
  · rintro rfl
    decide

/-- Helper: UPN mode expects `GEN_OTHERNAME` entries. -/
theorem expectedAltNameType_upn : expectedAltNameType NAME_TYPE_UPN = GEN_OTHERNAME := by
  decide

/-- Helper: an "other name" entry whose sub-OID guard fails selects no string
in UPN mode. -/
theorem altNameEntryString_upn_nonmatch (w : OTHERNAME)
    (hupn : upnOidMatch w.type_id = false) :
    altNameEntryString NAME_TYPE_UPN (GENERAL_NAME.otherName (some w)) = none := by
  simp only [altNameEntryString, GENERAL_NAME.otherName?]
  rw [if_neg (by decide), if_neg (by decide), if_neg (by decide), if_pos trivial]
  simp [hupn]

/-- Helper: in UPN mode the alternative-name scan yields nothing when no
entry is an "other name" carrying exactly the UPN OID. -/
theorem altScan_upn_none (lst : List GENERAL_NAME) (h : lst.all nonUpnOther = true) :
    altScan NAME_TYPE_UPN lst = none := by
  induction lst with
  | nil => rfl
  | cons gn rest ih =>
    rw [List.all_cons, Bool.and_eq_true] at h
    obtain ⟨hgn, hrest⟩ := h
    have ihr := ih hrest
    cases gn with
    | otherName v =>
      cases v with
      | none =>
        simp only [altScan, GENERAL_NAME.genType, expectedAltNameType_upn]
        rw [if_pos trivial]
        have hstr : altNameEntryString NAME_TYPE_UPN (GENERAL_NAME.otherName none) = none := by
          decide
        rw [hstr]
        exact ihr
      | some w =>
        have hne : w.type_id ≠ szOidUpn := by simpa [nonUpnOther] using hgn
        have hupn : upnOidMatch w.type_id = false := by
          cases hq : upnOidMatch w.type_id
          · rfl
          · exact absurd ((upnOidMatch_eq_true_iff _).mp hq) hne
        simp only [altScan, GENERAL_NAME.genType, expectedAltNameType_upn]
        rw [if_pos trivial, altNameEntryString_upn_nonmatch w hupn]
        exact ihr
    | rfc822Name s =>
      simp only [altScan, GENERAL_NAME.genType, expectedAltNameType_upn]
      rw [if_neg (by decide)]
      exact ihr
    | dNSName s =>
      simp only [altScan, GENERAL_NAME.genType, expectedAltNameType_upn]
      rw [if_neg (by decide)]
      exact ihr
    | x400Address =>
      simp only [altScan, GENERAL_NAME.genType, expectedAltNameType_upn]
      rw [if_neg (by decide)]
      exact ihr
    | directoryName =>
      simp only [altScan, GENERAL_NAME.genType, expectedAltNameType_upn]
      rw [if_neg (by decide)]
      exact ihr
    | ediPartyName =>
      simp only [altScan, GENERAL_NAME.genType, expectedAltNameType_upn]
      rw [if_neg (by decide)]
      exact ihr
    | uniformResourceIdentifier s =>
      simp only [altScan, GENERAL_NAME.genType, expectedAltNameType_upn]
      rw [if_neg (by decide)]
      exact ihr
    | iPAddress s =>
      simp only [altScan, GENERAL_NAME.genType, expectedAltNameType_upn]
      rw [if_neg (by decide)]
      exact ihr
    | registeredID =>
      simp only [altScan, GENERAL_NAME.genType, expectedAltNameType_upn]
      rw [if_neg (by decide)]
      exact ihr

/-- C2: the UPN "other name" guard accepts a sub-OID exactly when its decoded
text equals `1.3.6.1.4.1.311.20.2.3` (exact length and bytes — no prefix or
extension such as `1.3.6.1.4.1.311.20.2.30` matches); consequently a
UserPrincipalName query over a certificate none of whose "other name" entries
carries that exact OID returns no result. -/
theorem upn_oid_exact_equality :
    (∀ t : List Char, upnOidMatch t = true ↔ t = szOidUpn) ∧
    (∀ (cert : X509) (forIssuer : Bool),
        ((if forIssuer then cert.issuerAltNames else cert.subjectAltNames).getD []).all
            nonUpnOther = true →
        CryptoNative_GetX509NameInfo (some cert) NAME_TYPE_UPN forIssuer = none) := by
  refine ⟨upnOidMatch_eq_true_iff, ?_⟩
  intro cert forIssuer h
  simp only [CryptoNative_GetX509NameInfo, getX509NameInfoFull]
  rw [if_neg (by decide)]
  have hsp : simplePhase cert NAME_TYPE_UPN forIssuer = none := by
    simp [simplePhase, NAME_TYPE_UPN, NAME_TYPE_SIMPLE]
  rw [hsp]
  have hlp : legacyPhase cert NAME_TYPE_UPN forIssuer = none := by
    simp [legacyPhase, NAME_TYPE_UPN, NAME_TYPE_EMAIL, NAME_TYPE_DNS]
  cases hA : (if forIssuer then cert.issuerAltNames else cert.subjectAltNames) with
  | none => simp [altPhase, hA, hlp]
  | some lst =>
    have hScan : altScan NAME_TYPE_UPN lst = none := by
      refine altScan_upn_none lst ?_
      rw [hA] at h
      simpa using h
    simp [altPhase, hA, hScan, hlp]

/-- C2 witness: a SAN whose only entry carries the OID
`1.3.6.1.4.1.311.20.2.30` yields no UserPrincipalName. -/
theorem upn_oid_exact_equality_witness :
    (upn30San.all nonUpnOther = true) ∧
    CryptoNative_GetX509NameInfo (some upn30Cert) NAME_TYPE_UPN false = none :=
  ⟨by decide, upn_oid_exact_equality.2 upn30Cert false (by decide)⟩

/-- Helper: the SAN IP loop accepts exactly when some entry satisfies the
per-entry exact-length-and-bytes predicate. -/
theorem ipSanScan_eq_any (addr : List Nat) (alen : Int) (lst : List GENERAL_NAME) :
    ipSanScan addr alen lst = lst.any (sanIpMatchB addr alen) := by
  induction lst with
  | nil => rfl
  | cons gn rest ih =>
    cases gn with
    | iPAddress ip =>
      simp only [ipSanScan, GENERAL_NAME.genType, GENERAL_NAME.iPAddress?, List.any_cons,
        sanIpMatchB]
      rw [if_neg (by simp)]
      cases hd : ip.data with
      | none => simpa using ih
      | some d =>
        by_cases hlen : ip.length = alen
        · cases hm : memcmpEq addr d (Int.toNat alen) with
          | true => simp [hlen, hm]
          | false => simp [hlen, hm, ih]
        · simp [hlen, ih]
    | otherName v =>
      simp only [ipSanScan, GENERAL_NAME.genType, List.any_cons, sanIpMatchB]
      rw [if_pos (by simp [GEN_OTHERNAME, GEN_IPADD])]
      simpa using ih
    | rfc822Name s =>
      simp only [ipSanScan, GENERAL_NAME.genType, List.any_cons, sanIpMatchB]
      rw [if_pos (by simp [GEN_EMAIL, GEN_IPADD])]
      simpa using ih
    | dNSName s =>
      simp only [ipSanScan, GENERAL_NAME.genType, List.any_cons, sanIpMatchB]
      rw [if_pos (by simp [GEN_DNS, GEN_IPADD])]
      simpa using ih
    | x400Address =>
      simp only [ipSanScan, GENERAL_NAME.genType, List.any_cons, sanIpMatchB]
      rw [if_pos (by simp [GEN_X400, GEN_IPADD])]
      simpa using ih
    | directoryName =>
      simp only [ipSanScan, GENERAL_NAME.genType, List.any_cons, sanIpMatchB]
      rw [if_pos (by simp [GEN_DIRNAME, GEN_IPADD])]
      simpa using ih
    | ediPartyName =>
      simp only [ipSanScan, GENERAL_NAME.genType, List.any_cons, sanIpMatchB]
      rw [if_pos (by simp [GEN_EDIPARTY, GEN_IPADD])]
      simpa using ih
    | uniformResourceIdentifier s =>
      simp only [ipSanScan, GENERAL_NAME.genType, List.any_cons, sanIpMatchB]
      rw [if_pos (by simp [GEN_URI, GEN_IPADD])]
      simpa using ih
    | registeredID =>
      simp only [ipSanScan, GENERAL_NAME.genType, List.any_cons, sanIpMatchB]
      rw [if_pos (by simp [GEN_RID, GEN_IPADD])]
      simpa using ih

/-- Helper: the Common-Name fallback loop accepts exactly when some subject
entry satisfies the per-entry predicate. -/
theorem cnFallbackScan_eq_any (host : List Nat) (chost : Int) (l : List X509_NAME_ENTRY) :
    cnFallbackScan host chost l = l.any (cnHostMatchB host chost) := by
  induction l with
  | nil => rfl
  | cons e rest ih =>
    by_cases hn : e.nid = NID_commonName
    · by_cases hl : e.data.length = chost
      · cases hc : strncasecmpEq e.data.data host (Int.toNat chost) with
        | true => simp [cnFallbackScan, cnHostMatchB, hn, hl, hc]
        | false => simp [cnFallbackScan, cnHostMatchB, hn, hl, hc, ih]
      · simp [cnFallbackScan, cnHostMatchB, hn, hl, ih]
    · simp [cnFallbackScan, cnHostMatchB, hn, ih]

/-- C3: with argument-valid inputs, `CheckX509IpAddress` reports a match
exactly when some SAN IP entry has byte length equal to `addressBytesLen` and
identical bytes (so a 16-byte IPv6 entry can never satisfy a 4-byte query),
or — failing that — some Common-Name attribute of the Subject (any of them,
not only the first) equals the textual hostname case-insensitively at exactly
the claimed length. -/
theorem checkX509IpAddress_match_characterization
    (cert : X509) (addr host : List Nat) (alen chost : Int)
    (h1 : 0 ≤ alen) (h2 : 0 ≤ chost) :
    (checkX509IpAddressFull (some cert) (some addr) alen (some host) chost).result = 1 ↔
      ((∃ gn ∈ cert.subjectAltNames.getD [], sanIpMatchB addr alen gn = true) ∨
        (∃ name, cert.subject = some name ∧
          ∃ ent ∈ name.entries, cnHostMatchB host chost ent = true)) := by
  simp only [checkX509IpAddressFull]
  rw [if_neg (by simp), if_neg (by omega), if_neg (by omega)]
  cases hS : cert.subjectAltNames with
  | none =>
    cases hsub : cert.subject with
    | none => simp [hsub]
    | some nm => simp [hsub, cnFallbackScan_eq_any, List.any_eq_true]
  | some san =>
    dsimp only
    rw [ipSanScan_eq_any]
    cases hscan : san.any (sanIpMatchB addr alen) with
    | true =>
      rw [List.any_eq_true] at hscan
      simp [hscan]
    | false =>
      have hno : ¬∃ gn ∈ san, sanIpMatchB addr alen gn = true := by
        rw [← List.any_eq_true, hscan]
        simp
      cases hsub : cert.subject with
      | none => simp [hsub, hno]
      | some nm => simp [hsub, hno, cnFallbackScan_eq_any, List.any_eq_true]

/-- C3 witness: a 16-byte IPv6 SAN entry whose low-order 4 bytes are
`192.168.0.1` does not match the 4-byte query `192.168.0.1`. -/
theorem checkX509IpAddress_match_witness :
    ((0 : Int) ≤ 4 ∧ (0 : Int) ≤ 0) ∧
    ((checkX509IpAddressFull (some ip6Cert) (some [192, 168, 0, 1]) 4 (some []) 0).result = 1 ↔
      ((∃ gn ∈ ip6Cert.subjectAltNames.getD [], sanIpMatchB [192, 168, 0, 1] 4 gn = true) ∨
        (∃ name, ip6Cert.subject = some name ∧
          ∃ ent ∈ name.entries, cnHostMatchB [] 0 ent = true))) ∧
    (checkX509IpAddressFull (some ip6Cert) (some [192, 168, 0, 1]) 4 (some []) 0).result = 0 :=
  ⟨⟨by decide, by decide⟩,
    checkX509IpAddress_match_characterization ip6Cert [192, 168, 0, 1] [] 4 0
      (by decide) (by decide),
    by decide⟩

/-- Helper: when every `pthread_mutex_init` up to the loop bound succeeds,
the loop initializes all mutexes and reports no failure. -/
theorem initLoop_all_ok (ok : Nat → Bool) :
    ∀ (r i : Nat), (∀ j, j < r → ok (i + j) = true) → initLoop ok i r = (i + r, false) := by
  intro r
  induction r with
  | zero => intro i _; simp [initLoop]
  | succ r ih =>
    intro i h
    have h0 : ok i = true := by simpa using h 0 (Nat.succ_pos r)
    have hshift : ∀ j, j < r → ok (i + 1 + j) = true := by
      intro j hj
      have hx := h (j + 1) (by omega)
      have he : i + (j + 1) = i + 1 + j := by omega
      rwa [he] at hx
    simp only [initLoop]
    rw [if_pos h0, ih (i + 1) hshift]
    congr 1
    omega

/-- Helper: when the first `pthread_mutex_init` failure is at index `k`, the
loop stops with `locksInitialized = k` and the failure flag set. -/
theorem initLoop_first_fail (ok : Nat → Bool) :
    ∀ (r i k : Nat), k < r → (∀ j, j < k → ok (i + j) = true) → ok (i + k) = false →
      initLoop ok i r = (i + k, true) := by
  intro r
  induction r with
  | zero => intro i k hk _ _; exact absurd hk (Nat.not_lt_zero _)
  | succ r ih =>
    intro i k hk hok hfail
    cases k with
    | zero =>
      have h0 : ok i = false := by simpa using hfail
      simp [initLoop, h0]
    | succ k =>
      have h0 : ok i = true := by simpa using hok 0 (Nat.succ_pos k)
      have hshiftOk : ∀ j, j < k → ok (i + 1 + j) = true := by
        intro j hj
        have hx := hok (j + 1) (by omega)
        have he : i + (j + 1) = i + 1 + j := by omega
        rwa [he] at hx
      have hshiftFail : ok (i + 1 + k) = false := by
        have he : i + (k + 1) = i + 1 + k := by omega
        rwa [he] at hfail
      simp only [initLoop]
      rw [if_pos h0, ih (i + 1) k (by omega) hshiftOk hshiftFail]
      congr 1
      omega

/-- C7: in the legacy initialization, each mid-sequence failure leaves
`g_locks` NULL, frees the array only if it was allocated, destroys exactly
the mutexes initialized so far (in reverse order), and returns the
distinguishing small positive code: 1 for an invalid lock count, 2 for
multiplication-overflow/allocation failure, 3 for a mutex-init failure, 4
for a random-seed failure. -/
theorem init10_failure_cleanup :
    (∀ (st : Init10State) (env : Env10), st.g_locks = none → env.numLocks ≤ 0 →
        EnsureOpenSsl10Initialized st env = ⟨1, none, [], false⟩) ∧
    (∀ (st : Init10State) (env : Env10), st.g_locks = none → 0 < env.numLocks →
        (env.mulOk = false ∨ env.mallocOk = false) →
        EnsureOpenSsl10Initialized st env = ⟨2, none, [], false⟩) ∧
    (∀ (st : Init10State) (env : Env10) (k : Nat), st.g_locks = none → 0 < env.numLocks →
        env.mulOk = true → env.mallocOk = true →
        k < Int.toNat env.numLocks → (∀ j, j < k → env.mutexInitOk j = true) →
        env.mutexInitOk k = false →
        EnsureOpenSsl10Initialized st env = ⟨3, none, (List.range k).reverse, true⟩) ∧
    (∀ (st : Init10State) (env : Env10), st.g_locks = none → 0 < env.numLocks →
        env.mulOk = true → env.mallocOk = true →
        (∀ j, j < Int.toNat env.numLocks → env.mutexInitOk j = true) → env.randPollResult < 1 →
        EnsureOpenSsl10Initialized st env =
          ⟨4, none, (List.range (Int.toNat env.numLocks)).reverse, true⟩) := by
  refine ⟨?_, ?_, ?_, ?_⟩
  · intro st env hst hn
    obtain ⟨gl⟩ := st
    cases hst
    have hrun : ensure10Run env = (1, none, 0) := by
      simp [ensure10Run, hn]
    simp [EnsureOpenSsl10Initialized, hrun]
  · intro st env hst hn hfail
    obtain ⟨gl⟩ := st
    cases hst
    have hrun : ensure10Run env = (2, none, 0) := by
      rcases hfail with h | h
      · simp [ensure10Run, h]
        omega
      · simp only [ensure10Run]
        rw [if_neg (by omega)]
        cases hm : env.mulOk with
        | false => simp
        | true => simp [h]
    simp [EnsureOpenSsl10Initialized, hrun]
  · intro st env k hst hn hmul hmalloc hk hok hfail
    obtain ⟨gl⟩ := st
    cases hst
    have hloop : initLoop env.mutexInitOk 0 (Int.toNat env.numLocks) = (k, true) := by
      have := initLoop_first_fail env.mutexInitOk (Int.toNat env.numLocks) 0 k hk
        (by simpa using hok) (by simpa using hfail)
      simpa using this
    have hrun : ensure10Run env = (3, some (Int.toNat env.numLocks), k) := by
      simp only [ensure10Run]
      rw [if_neg (by omega), if_neg (by simp [hmul]), if_neg (by simp [hmalloc])]
      simp [hloop]
    simp [EnsureOpenSsl10Initialized, hrun]
  · intro st env hst hn hmul hmalloc hok hrand
    obtain ⟨gl⟩ := st
    cases hst
    have hloop : initLoop env.mutexInitOk 0 (Int.toNat env.numLocks) =
        (Int.toNat env.numLocks, false) := by
      have := initLoop_all_ok env.mutexInitOk (Int.toNat env.numLocks) 0 (by simpa using hok)
      simpa using this
    have hrun : ensure10Run env = (4, some (Int.toNat env.numLocks), Int.toNat env.numLocks) := by
      simp only [ensure10Run]
      rw [if_neg (by omega), if_neg (by simp [hmul]), if_neg (by simp [hmalloc])]
      simp [hloop, hrand]
    simp [EnsureOpenSsl10Initialized, hrun]

/-- C7 witness: lock count 2, second mutex initialization fails — only the
first mutex is destroyed, the array is freed, `g_locks` ends NULL, code 3. -/
theorem init10_failure_cleanup_witness :
    (envMutexFail.mutexInitOk 0 = true ∧ envMutexFail.mutexInitOk 1 = false ∧
      (0 : Int) < envMutexFail.numLocks) ∧
    EnsureOpenSsl10Initialized ⟨none⟩ envMutexFail = ⟨3, none, (List.range 1).reverse, true⟩ :=
  ⟨⟨by decide, by decide, by decide⟩,
    init10_failure_cleanup.2.2.1 ⟨none⟩ envMutexFail 1 rfl (by decide) rfl rfl (by decide)
      (by decide) (by decide)⟩

/-- C8 witness: the probe/retry round trip on a concrete two-byte string and
a concrete two-byte DER name. -/
theorem bufferProbe_convention_witness :
    ((0 : Int) < twoByteStr.length ∧
      (CryptoNative_GetAsn1StringBytes (some twoByteStr) false 0).ret = -2 ∧
      CryptoNative_GetAsn1StringBytes (some twoByteStr) true 2 = ⟨1, 2⟩) ∧
    (derName.der = some [48, 0] ∧
      (CryptoNative_GetX509NameRawBytes (some derName) false 0).ret = -2 ∧
      CryptoNative_GetX509NameRawBytes (some derName) true 2 = ⟨1, 2⟩) := by
  have ha := bufferProbe_convention.2.1 twoByteStr (by decide)
  have hb := bufferProbe_convention.2.2.2 derName [48, 0] rfl (by decide) (by decide)
  exact ⟨⟨by decide, ha.1, ha.2.2.1⟩, ⟨rfl, hb.1, hb.2.2⟩⟩
